import Mathlib

set_option maxRecDepth 100000

/-!
Verification development for the Sous Chef Kitchen run-orchestration core
(sous_chef_kitchen/kitchen/chef.py, sous_chef_kitchen/kitchen/flow.py,
sous_chef_kitchen/shared/models.py), as a shallow embedding in Lean.

Python dictionaries are modelled as association lists in insertion order,
UUIDs as natural numbers, and the remote Prefect engine and Media Cloud
identity service as explicit environment values.
-/

namespace SousChefKitchen

/-! ## Shared constants (chef.py / flow.py) -/

def BASE_TAGS : List String := ["kitchen"]

/-- Prefect run state types used by the kitchen. -/
inductive StateType where
  | RUNNING | SCHEDULED | PENDING | PAUSED
  | COMPLETED | FAILED | CANCELLED | CANCELLING
deriving DecidableEq, Repr

def PREFECT_ACTIVE_STATES : List StateType :=
  [StateType.RUNNING, StateType.SCHEDULED, StateType.PENDING]

/-- Python exceptions raised by chef.py: ValueError or RuntimeError with a message. -/
inductive PyErr where
  | valueError (msg : String)
  | runtimeError (msg : String)
deriving DecidableEq, Repr

/-- Decidable equality for Except results (needed to evaluate concrete
outcomes in witnesses). -/
def exceptDecEq {ε α : Type} [DecidableEq ε] [DecidableEq α] :
    DecidableEq (Except ε α)
  | .ok a, .ok b =>
      match decEq a b with
      | isTrue h => isTrue (h ▸ rfl)
      | isFalse h => isFalse (fun hc => h (Except.ok.inj hc))
  | .ok _, .error _ => isFalse (fun hc => Except.noConfusion hc)
  | .error _, .ok _ => isFalse (fun hc => Except.noConfusion hc)
  | .error a, .error b =>
      match decEq a b with
      | isTrue h => isTrue (h ▸ rfl)
      | isFalse h => isFalse (fun hc => h (Except.error.inj hc))

instance {ε α : Type} [DecidableEq ε] [DecidableEq α] :
    DecidableEq (Except ε α) := exceptDecEq

/-! ## String helpers modelling Python string operations

All string munging is done on the underlying character list so that the
operations are easy to reason about. -/

/-- Python list repr quote character (an ASCII apostrophe). -/
def pyQuote : String := String.singleton (Char.ofNat 39)

/-- Python `str(list_of_strings)`, e.g. a two-element list prints as
[ 'a', 'b' ] without the spaces after the opening bracket. -/
def pyListStr (xs : List String) : String :=
  "[" ++ String.intercalate ", " (xs.map (fun s => pyQuote ++ s ++ pyQuote)) ++ "]"

/-- `s.lower()` (ASCII case mapping; the emails handled here are ASCII). -/
def pyLower (s : String) : String := String.mk (s.data.map Char.toLower)

/-- Membership test for a character, modelling Python `"@" in s`. -/
def strHasChar (s : String) (c : Char) : Bool := s.data.any (fun d => d == c)

/-- `s.split(sep)[0]` for a one-character separator: the prefix of `s`
before the first occurrence of the character (all of `s` if absent). -/
def strBefore (s : String) (c : Char) : String :=
  String.mk (s.data.takeWhile (fun d => d != c))

/-- First `n` characters of a string, modelling Python slicing `s[:n]`. -/
def strTake (s : String) (n : Nat) : String := String.mk (s.data.take n)

/-! ## SHA-1 (hashlib.sha1), over lists of bytes as naturals below 256 -/

namespace SHA1

def wordMod : Nat := 4294967296

/-- Rotate a 32-bit word left by `n` bits. -/
def rotl (n x : Nat) : Nat := ((x <<< n) ||| (x >>> (32 - n))) % wordMod

/-- Big-endian byte expansion of `x` into `len` bytes. -/
def toBytesBE (len x : Nat) : List Nat :=
  (List.range len).map (fun i => (x >>> (8 * (len - 1 - i))) % 256)

/-- Merkle–Damgård padding: a 0x80 byte, zero bytes to 56 mod 64, then the
bit length as an 8-byte big-endian integer. -/
def pad (msg : List Nat) : List Nat :=
  let l := msg.length
  let k := (120 - ((l + 1) % 64)) % 64
  msg ++ [128] ++ List.replicate k 0 ++ toBytesBE 8 (8 * l)

/-- The sixteen 32-bit big-endian words of a 64-byte block. -/
def blockWords (block : List Nat) : List Nat :=
  (List.range 16).map (fun i =>
    (block.getD (4 * i) 0) <<< 24 ||| (block.getD (4 * i + 1) 0) <<< 16 |||
    (block.getD (4 * i + 2) 0) <<< 8 ||| block.getD (4 * i + 3) 0)

/-- Extend sixteen message words to the eighty round words. -/
def extend (w : Array Nat) : Array Nat :=
  (List.range 64).foldl
    (fun w j =>
      let i := j + 16
      w.push (rotl 1 ((w.getD (i - 3) 0) ^^^ (w.getD (i - 8) 0) ^^^
        (w.getD (i - 14) 0) ^^^ (w.getD (i - 16) 0))))
    w

/-- The round function. -/
def f (t b c d : Nat) : Nat :=
  if t < 20 then (b &&& c) ||| ((b ^^^ (wordMod - 1)) &&& d)
  else if t < 40 then b ^^^ c ^^^ d
  else if t < 60 then (b &&& c) ||| (b &&& d) ||| (c &&& d)
  else b ^^^ c ^^^ d

/-- The round constants. -/
def k (t : Nat) : Nat :=
  if t < 20 then 0x5A827999
  else if t < 40 then 0x6ED9EBA1
  else if t < 60 then 0x8F1BBCDC
  else 0xCA62C1D6

/-- Chaining state. -/
structure Hs where
  h0 : Nat
  h1 : Nat
  h2 : Nat
  h3 : Nat
  h4 : Nat

def initState : Hs :=
  ⟨0x67452301, 0xEFCDAB89, 0x98BADCFE, 0x10325476, 0xC3D2E1F0⟩

/-- Compress one 64-byte block into the chaining state. -/
def processBlock (st : Hs) (block : List Nat) : Hs :=
  let w := extend (blockWords block).toArray
  let r :=
    (List.range 80).foldl
      (fun (acc : Nat × Nat × Nat × Nat × Nat) t =>
        let (a, b, c, d, e) := acc
        let temp := (rotl 5 a + f t b c d + e + k t + w.getD t 0) % wordMod
        (temp, a, rotl 30 b, c, d))
      (st.h0, st.h1, st.h2, st.h3, st.h4)
  ⟨(st.h0 + r.1) % wordMod, (st.h1 + r.2.1) % wordMod, (st.h2 + r.2.2.1) % wordMod,
    (st.h3 + r.2.2.2.1) % wordMod, (st.h4 + r.2.2.2.2) % wordMod⟩

/-- SHA-1 digest of a byte list, as twenty bytes. -/
def digestBytes (msg : List Nat) : List Nat :=
  let padded := pad msg
  let blocks := (List.range (padded.length / 64)).map
    (fun i => (padded.drop (64 * i)).take 64)
  let st := blocks.foldl processBlock initState
  toBytesBE 4 st.h0 ++ toBytesBE 4 st.h1 ++ toBytesBE 4 st.h2 ++
    toBytesBE 4 st.h3 ++ toBytesBE 4 st.h4

/-- A nibble as a lowercase hex character. -/
def hexDigit (n : Nat) : Char :=
  if n < 10 then Char.ofNat (48 + n) else Char.ofNat (87 + n)

/-- A byte as two lowercase hex characters. -/
def byteHex (b : Nat) : String := String.mk [hexDigit (b / 16), hexDigit (b % 16)]

end SHA1

/-- UTF-8 encoding of one character (as Python `str.encode()` produces). -/
def utf8Bytes (c : Char) : List Nat :=
  let n := c.toNat
  if n < 0x80 then [n]
  else if n < 0x800 then [0xC0 ||| (n >>> 6), 0x80 ||| (n &&& 0x3F)]
  else if n < 0x10000 then
    [0xE0 ||| (n >>> 12), 0x80 ||| ((n >>> 6) &&& 0x3F), 0x80 ||| (n &&& 0x3F)]
  else
    [0xF0 ||| (n >>> 18), 0x80 ||| ((n >>> 12) &&& 0x3F),
      0x80 ||| ((n >>> 6) &&& 0x3F), 0x80 ||| (n &&& 0x3F)]

/-- UTF-8 bytes of a string. -/
def strUTF8 (s : String) : List Nat :=
  s.data.foldr (fun c acc => utf8Bytes c ++ acc) []

/-- `hashlib.sha1(s.encode()).hexdigest()`: the SHA-1 digest of the UTF-8
bytes of `s` in lowercase hex. -/
def sha1Hex (s : String) : String :=
  String.join ((SHA1.digestBytes (strUTF8 s)).map SHA1.byteHex)

/-! ## Tag slug (chef.py generate_tag_slug) -/

/-- Python `[a-zA-Z0-9]` (ASCII letters and digits). -/
def isTagAlnum (c : Char) : Bool := c.isAlphanum

/-- chef.py uses re.sub with the single-character class [^a-zA-Z0-9] and the
replacement "-": every individual non-alphanumeric character becomes its
own dash (a run of n such characters becomes n dashes). -/
def pySubNonAlnumEach (s : String) : String :=
  String.mk (s.data.map (fun c => if isTagAlnum c then c else '-'))

/-- chef.py `generate_tag_slug`: sanitized lowercased local part of the
email plus the first 8 hex characters of sha1 of "email:api_key",
joined as user-{base_slug}-{digest}. -/
def generate_tag_slug (user_email api_key : String) : String :=
  let base_slug :=
    if !strHasChar user_email '@' then pySubNonAlnumEach (pyLower user_email)
    else pySubNonAlnumEach (pyLower (strBefore user_email '@'))
  let digest := strTake (sha1Hex (user_email ++ ":" ++ api_key)) 8
  "user-" ++ base_slug ++ "-" ++ digest

/-! Spec-side tag slug, for comparison with the source's definition.
The spec sentence says: take the local part of the email, lowercase it,
"replace every run of non-alphanumeric characters with a single -". -/

/-- Worker for collapseRunsToDash; the flag records whether the previous
character was part of a non-alphanumeric run already emitted as a dash. -/
def collapseGo : Bool → List Char → List Char
  | _, [] => []
  | inRun, c :: rest =>
      if isTagAlnum c then c :: collapseGo false rest
      else if inRun then collapseGo true rest
      else '-' :: collapseGo true rest

/-- Replace every maximal run of non-alphanumeric characters with one dash
(the sanitization step as the spec words it). -/
def collapseRunsToDash (l : List Char) : List Char := collapseGo false l

/-- The tag-slug algorithm exactly as the spec states it. -/
def specTagSlug (email api_key : String) : String :=
  "user-" ++ String.mk (collapseRunsToDash (pyLower (strBefore email '@')).data) ++
    "-" ++ strTake (sha1Hex (email ++ ":" ++ api_key)) 8

/-! ## Output formatter and artifact filter (flow.py) -/

/-- One value of the formatted output mapping: a Python dict
with a "data" key and an optional "restricted" key
(`output.get("restricted", False)` treats an absent key as False). -/
structure FmtEntry (α : Type) where
  data : α
  restricted : Option Bool
deriving DecidableEq, Repr

/-- The value the Python reads for the restricted flag:
`output.get("restricted", False)`. -/
def FmtEntry.restrictedFlag {α : Type} (e : FmtEntry α) : Bool :=
  e.restricted.getD false

/-- flow.py `_filter_restricted_fields`: if `return_restricted` is true the
mapping is returned as-is; otherwise a new mapping is built keeping, in
iteration order, exactly the entries whose restricted flag is false. -/
def filterRestrictedFields {α : Type} (formatted_data : List (String × FmtEntry α))
    (return_restricted : Bool) : List (String × FmtEntry α) :=
  if return_restricted then formatted_data
  else buildFiltered formatted_data
where
  /-- The `for task_name, output in formatted_data.items()` loop that inserts
  non-restricted entries into the fresh `filtered` dict. -/
  buildFiltered : List (String × FmtEntry α) → List (String × FmtEntry α)
    | [] => []
    | (task_name, output) :: rest =>
        if !output.restrictedFlag then
          (task_name, output) :: buildFiltered rest
        else
          buildFiltered rest

/-! ## The engine data model (Prefect, black-box port) -/

/-- A Python value appearing in recipe parameters: a string or a list of
strings (the shapes the email_to enrichment distinguishes). -/
inductive PVal where
  | s (v : String)
  | l (vs : List String)
deriving DecidableEq, Repr

/-- A Python dict of recipe parameters, in insertion order. -/
abbrev Params : Type := List (String × PVal)

/-- Python `d.get(k)`. -/
def paramsGet (p : Params) (k : String) : Option PVal :=
  (p.find? (fun q => q.1 == k)).map (fun q => q.2)

/-- Python `d[k] = v`: overwrite in place, or append a new entry. -/
def paramsSet (p : Params) (k : String) (v : PVal) : Params :=
  if (p.find? (fun q => q.1 == k)).isSome then
    p.map (fun q => if q.1 == k then (k, v) else q)
  else p ++ [(k, v)]

/-- The payload start_recipe submits to the kitchen-base deployment. -/
structure PrefectParams where
  recipe_name : String
  tags : List String
  parameters : Params
  return_restricted_artifacts : Bool
deriving DecidableEq, Repr

/-- A Prefect flow run as stored by the engine. The UUID is a natural. -/
structure FlowRun where
  id : Nat
  name : String
  tags : List String
  state_type : StateType
  parent_task_run_id : Option Nat
  created : Nat
  parameters : Option PrefectParams
deriving DecidableEq, Repr

/-- Engine response to a set_flow_run_state request. -/
inductive SetStateOutcome where
  | accept
  | abort (reason : String)
deriving DecidableEq, Repr

/-- The remote Prefect engine as seen through its client port: the stored
runs, the registered deployment names, the id/name/clock it will give the
next created run, and how it answers state-transition requests. -/
structure Engine where
  runs : List FlowRun
  deployments : List String
  nextRunId : Nat
  nextRunName : String
  clock : Nat
  setStateOutcome : Nat → StateType → SetStateOutcome

/-- Prefect display names of the state types. -/
def stateName : StateType → String
  | .RUNNING => "Running"
  | .SCHEDULED => "Scheduled"
  | .PENDING => "Pending"
  | .PAUSED => "Paused"
  | .COMPLETED => "Completed"
  | .FAILED => "Failed"
  | .CANCELLED => "Cancelled"
  | .CANCELLING => "Cancelling"

/-- The dictionary produced by chef.py `_run_to_dict`. Its "id" value is the
run's UUID object (not a string). -/
structure RunDict where
  id : Nat
  name : String
  parameters : Option PrefectParams
  state_name : String
  state_type : StateType
  tags : List String
deriving DecidableEq, Repr

def runToDict (r : FlowRun) : RunDict :=
  { id := r.id, name := r.name, parameters := r.parameters,
    state_name := stateName r.state_type, state_type := r.state_type,
    tags := r.tags }

/-- A Python dict key as it occurs in chef.py's run dictionaries: either a
UUID object or a string. Python equality between a UUID and a string is
always false, which this type's equality mirrors. -/
inductive PyKey where
  | uuid (n : Nat)
  | str (s : String)
deriving DecidableEq, Repr

/-- Python `dict(...)` built from a key/value sequence followed by `.get k`:
on duplicate keys the last insertion wins. -/
def pyDictGet {κ ν : Type} [BEq κ] (entries : List (κ × ν)) (k : κ) : Option ν :=
  (entries.reverse.find? (fun p => p.1 == k)).map (fun p => p.2)

/-! ## Run registry queries (chef.py fetch functions) -/

/-- chef.py `fetch_runs_by_state`: the function appends BASE_TAGS to the
given tag list and asks the engine for runs carrying all of those tags
whose state is among `states`. -/
def fetchRunsByState (eng : Engine) (tags : List String) (states : List StateType) :
    List RunDict :=
  let tags := tags ++ BASE_TAGS
  (eng.runs.filter (fun r =>
    tags.all (fun t => r.tags.contains t) && states.contains r.state_type)).map runToDict

/-- chef.py `fetch_active_runs`. -/
def fetchActiveRuns (eng : Engine) (tags : List String) : List RunDict :=
  fetchRunsByState eng tags PREFECT_ACTIVE_STATES

/-- chef.py `fetch_paused_runs`. -/
def fetchPausedRuns (eng : Engine) (tags : List String) : List RunDict :=
  fetchRunsByState eng tags [StateType.PAUSED]

/-- Is `c` one of the brace characters stripped by Python `strip(...)` in
`uuid.UUID` (written via code points to keep braces out of literals). -/
def isBraceChar (c : Char) : Bool := c.toNat == 123 || c.toNat == 125

/-- Remove every occurrence of `pat` from `l` (Python `str.replace(pat, "")`),
with explicit fuel so the definition reduces in the kernel. -/
def removeAllGo (pat : List Char) : Nat → List Char → List Char
  | _, [] => []
  | 0, l => l
  | fuel + 1, c :: rest =>
      if pat.isPrefixOf (c :: rest) then
        removeAllGo pat fuel ((c :: rest).drop pat.length)
      else c :: removeAllGo pat fuel rest

def removeAll (pat l : List Char) : List Char := removeAllGo pat l.length l

def hexVal (c : Char) : Nat :=
  if c.toNat ≥ 97 then c.toNat - 87
  else if c.toNat ≥ 65 then c.toNat - 55
  else c.toNat - 48

/-- Python `uuid.UUID(run_id)` for a string argument: drop "urn:" and
"uuid:" fragments, strip surrounding braces, drop dashes; the remaining
string must be exactly 32 hex digits, read as a hexadecimal integer. -/
def parseUUID (s : String) : Option Nat :=
  let hexChars :=
    (removeAll "uuid:".data (removeAll "urn:".data s.data)).dropWhile isBraceChar
  let hexChars := ((hexChars.reverse.dropWhile isBraceChar).reverse).filter
    (fun c => c != '-')
  if hexChars.length == 32 && hexChars.all (fun c => c.isDigit ||
      (97 ≤ c.toNat && c.toNat ≤ 102) || (65 ≤ c.toNat && c.toNat ≤ 70)) then
    some (hexChars.foldl (fun acc c => 16 * acc + hexVal c) 0)
  else none

/-- The message of chef.py's "could not parse" ValueError. -/
def uuidParseErrMsg (run_id : String) : String :=
  "Failed to parse the string as a UUID for " ++ run_id ++ "."

/-- Exceptions seen from the engine client are modelled with this
stringification (Prefect's ObjectNotFound stringifies to its args; the
kitchen only ever embeds it into a larger message). -/
def objectNotFoundStr : String := ""

/-- Messages of chef.py / Prefect-client exceptions, as embedded by
cancel_recipe_run's `str(e)`. -/
def errStr : PyErr → String
  | .valueError m => m
  | .runtimeError m => m

/-- chef.py `fetch_run_by_id` for a string id: parse as UUID (a non-UUID
string is a ValueError), then read the run from the engine (an unknown id
raises the client's ObjectNotFound, modelled as a ValueError carrying its
stringification). -/
def fetchRunById (eng : Engine) (run_id : String) : Except PyErr RunDict :=
  match parseUUID run_id with
  | none => .error (.valueError (uuidParseErrMsg run_id))
  | some u =>
      match eng.runs.find? (fun r => r.id == u) with
      | none => .error (.valueError objectNotFoundStr)
      | some r => .ok (runToDict r)

/-! ## Lifecycle controller (chef.py cancel/pause/resume) -/

/-- Engine calls a lifecycle operation performs. -/
inductive LifecycleOp where
  | setState (runId : Nat) (target : StateType)
  | pauseRun (runId : Nat)
  | resumeRun (runId : Nat)
deriving DecidableEq, Repr

def cancelNotFoundMsg (run_id recipe_name underlying : String) : String :=
  "Unable to find a run " ++ run_id ++ " for recipe " ++ recipe_name ++ ": " ++
    underlying

def cancelTagsMsg (run_id : String) (required run_tags : List String) : String :=
  "Run " ++ run_id ++ " does not have the required tags. Required: " ++
    pyListStr required ++ ", Run has: " ++ pyListStr run_tags

def cancelAbortMsg (reason : String) : String :=
  "Unable to cancel the flow run: " ++ reason

/-- chef.py `cancel_recipe_run`: fetch the run by id (any failure becomes a
"Unable to find a run" ValueError); require the run to carry the caller's
tags plus BASE_TAGS (just BASE_TAGS when the tag list is empty, i.e. an
admin); request a CANCELLING transition; surface an engine ABORT as a
RuntimeError. Returns the outcome plus the engine calls made. -/
def cancelRecipeRun (eng : Engine) (recipe_name run_id : String)
    (tags : List String) : Except PyErr SetStateOutcome × List LifecycleOp :=
  match fetchRunById eng run_id with
  | .error e =>
      (.error (.valueError (cancelNotFoundMsg run_id recipe_name (errStr e))), [])
  | .ok run_dict =>
      let required_tags := if tags.isEmpty then BASE_TAGS else tags ++ BASE_TAGS
      if !(required_tags.all (fun t => run_dict.tags.contains t)) then
        (.error (.valueError (cancelTagsMsg run_id required_tags run_dict.tags)), [])
      else
        match eng.setStateOutcome run_dict.id StateType.CANCELLING with
        | .abort reason =>
            (.error (.runtimeError (cancelAbortMsg reason)),
              [.setState run_dict.id StateType.CANCELLING])
        | .accept =>
            (.ok .accept, [.setState run_dict.id StateType.CANCELLING])

def pauseNotFoundMsg (run_id recipe_name : String) : String :=
  "Unable to find an active run named " ++ run_id ++ " for recipe " ++
    recipe_name ++ "."

def resumeNotFoundMsg (run_id recipe_name : String) : String :=
  "Unable to find a paused run named " ++ run_id ++ " for recipe " ++
    recipe_name ++ "."

/-- chef.py `pause_recipe_run`: build a dict of the active runs keyed by
their "id" dict value — a UUID object — and look the string `run_id` up in
it; pause the run if found, raise ValueError otherwise. -/
def pauseRecipeRun (eng : Engine) (recipe_name run_id : String)
    (tags : List String) : Except PyErr Unit × List LifecycleOp :=
  let tags := tags ++ BASE_TAGS
  let active_runs : List (PyKey × RunDict) :=
    (fetchActiveRuns eng tags).map (fun r => (PyKey.uuid r.id, r))
  match pyDictGet active_runs (PyKey.str run_id) with
  | none => (.error (.valueError (pauseNotFoundMsg run_id recipe_name)), [])
  | some recipe_run => (.ok (), [.pauseRun recipe_run.id])

/-- chef.py `resume_recipe_run`: same shape over the paused runs. -/
def resumeRecipeRun (eng : Engine) (recipe_name run_id : String)
    (tags : List String) : Except PyErr Unit × List LifecycleOp :=
  let tags := tags ++ BASE_TAGS
  let paused_runs : List (PyKey × RunDict) :=
    (fetchPausedRuns eng tags).map (fun r => (PyKey.uuid r.id, r))
  match pyDictGet paused_runs (PyKey.str run_id) with
  | none => (.error (.valueError (resumeNotFoundMsg run_id recipe_name)), [])
  | some recipe_run => (.ok (), [.resumeRun recipe_run.id])

/-! ## Auth resolver (chef.py validate_auth, shared/models.py) -/

/-- shared/models.py `SousChefKitchenAuthStatus`: the pydantic model declares
exactly two boolean fields (both default false) plus the computed property
`authorized`. -/
structure SousChefKitchenAuthStatus where
  media_cloud_authorized : Bool := false
  sous_chef_authorized : Bool := false
deriving DecidableEq, Repr

/-- The computed field `authorized`. -/
def SousChefKitchenAuthStatus.authorized (s : SousChefKitchenAuthStatus) : Bool :=
  s.media_cloud_authorized && s.sous_chef_authorized

/-- A Python value assigned to an attribute of the auth status object. -/
inductive AVal where
  | b (v : Bool)
  | s (v : String)
deriving DecidableEq, Repr

/-- pydantic `BaseModel.__setattr__`: assigning one of the declared fields
updates it (assignment validation is off by default, and validate_auth only
ever assigns booleans to the declared fields); assigning any name that is
not a declared field raises ValueError ("object has no field ..."). -/
def pydanticSetattr (st : SousChefKitchenAuthStatus) (name : String) (v : AVal) :
    Except String SousChefKitchenAuthStatus :=
  match name, v with
  | "media_cloud_authorized", .b x => .ok { st with media_cloud_authorized := x }
  | "sous_chef_authorized", .b x => .ok { st with sous_chef_authorized := x }
  | _, _ =>
      .error ("\"SousChefKitchenAuthStatus\" object has no field \"" ++ name ++ "\"")

/-- The relevant keys of the JSON dict returned by the Media Cloud
`user_profile()` call. -/
structure McProfile where
  message : Option String := none
  is_staff : Option Bool := none
deriving DecidableEq, Repr

/-- The identity port: the profile lookup either returns a dict or raises. -/
inductive IdentityResponse where
  | ok (profile : McProfile)
  | exn (msg : String)

/-- Run a sequence of attribute assignments inside validate_auth's `try`
block: each assignment mutates the status object in place; the first
raising assignment aborts the block, and the blanket `except` returns the
status object as mutated so far. -/
def runAuthAssigns (st : SousChefKitchenAuthStatus) :
    List (String × AVal) → SousChefKitchenAuthStatus
  | [] => st
  | (n, v) :: rest =>
      match pydanticSetattr st n v with
      | .ok st2 => runAuthAssigns st2 rest
      | .error _ => st

/-- chef.py `validate_auth`: empty email or key short-circuits to the
all-false status; an exception from the identity service or the
"User Not Found" sentinel returns the all-false status; otherwise the
function assigns, in source order, media_cloud_authorized := true,
media_cloud_staff, media_cloud_full_text_authorized,
sous_chef_authorized := true and tag_slug on the status object. -/
def validate_auth (identity : IdentityResponse) (auth_email auth_key : String) :
    SousChefKitchenAuthStatus :=
  let status : SousChefKitchenAuthStatus := {}
  if auth_email == "" || auth_key == "" then status
  else
    match identity with
    | .exn _ => status
    | .ok profile =>
        if profile.message == some "User Not Found" then status
        else
          runAuthAssigns status
            [("media_cloud_authorized", .b true),
             ("media_cloud_staff", .b (profile.is_staff.getD false)),
             ("media_cloud_full_text_authorized", .b (profile.is_staff.getD false)),
             ("sous_chef_authorized", .b true),
             ("tag_slug", .s (generate_tag_slug auth_email auth_key))]

/-! ## Flow registry port and run dispatcher (chef.py start_recipe) -/

/-- Outcome of instantiating a flow's pydantic params model on raw
parameters: validated parameters, a pydantic ValidationError carrying
(dotted field path, message) pairs, or some other exception. -/
inductive PydanticOutcome where
  | ok (validated : Params)
  | validationError (errors : List (String × String))
  | otherExn (msg : String)

/-- Flow metadata from the sous_chef flow registry (external port):
admin-only flag, optional params model (modelled by its instantiation
behaviour), and whether the params model declares an email_to field. -/
structure FlowMeta where
  admin_only : Bool := false
  params_model : Option (Params → PydanticOutcome) := none
  emailToField : Bool := false

/-- The registry: flow lookup plus the schema shown in error messages
(`get_flow_schema`, rendered to the string the f-strings embed). -/
structure FlowRegistry where
  flows : List (String × FlowMeta)
  schemas : List (String × String)

def get_flow (reg : FlowRegistry) (name : String) : Option FlowMeta :=
  (reg.flows.find? (fun p => p.1 == name)).map (fun p => p.2)

def get_flow_schema (reg : FlowRegistry) (name : String) : String :=
  ((reg.schemas.find? (fun p => p.1 == name)).map (fun p => p.2)).getD ""

/-- Configuration read from the environment by chef.py. -/
structure KitchenConfig where
  maxUserFlows : Nat := 1
  prefectDeployment : String := "kitchen-base"

/-- Python repr of a parameter value. -/
def pValStr : PVal → String
  | .s v => pyQuote ++ v ++ pyQuote
  | .l vs => pyListStr vs

/-- Python repr of a parameters dict (braces written via code points). -/
def pyParamsStr (p : Params) : String :=
  "\x7b" ++
    String.intercalate ", "
      (p.map (fun q => pyQuote ++ q.1 ++ pyQuote ++ ": " ++ pValStr q.2)) ++
    "\x7d"

def flowNotFoundMsg (recipe_name : String) : String :=
  "Flow " ++ pyQuote ++ recipe_name ++ pyQuote ++ " not found"

def adminOnlyMsg (recipe_name : String) : String :=
  "Recipe " ++ pyQuote ++ recipe_name ++ pyQuote ++ " is restricted to admin users."

/-- The user-facing message for a pydantic ValidationError: one line per
field ("path: message"), then the flow's expected schema. -/
def paramValidationMsg (recipe_name : String) (errors : List (String × String))
    (schema : String) : String :=
  "Parameter validation failed for " ++ pyQuote ++ recipe_name ++ pyQuote ++
    ":\n" ++ String.intercalate "\n" (errors.map (fun e => e.1 ++ ": " ++ e.2)) ++
    "\n\nExpected schema: " ++ schema

/-- The message for a non-pydantic exception during validation. -/
def paramGenericErrMsg (recipe_name : String) (parameters : Params) (m : String)
    (schema : String) : String :=
  "Error validating parameters for " ++ pyQuote ++ recipe_name ++ pyQuote ++
    " with " ++ pyParamsStr parameters ++ ": \n " ++ m ++
    " \n Expected schema: " ++ schema

def capacityMsg (active quota : Nat) : String :=
  "Cannot start a new recipe run. You have " ++ toString active ++ "/" ++
    toString quota ++ " allocated flows running. " ++
    "Please wait for your current runs to complete or cancel them before starting a new one."

def noDeploymentMsg (deployment : String) : String :=
  "No deployment found matching " ++ pyQuote ++ deployment ++ pyQuote ++ ". " ++
    "The deployment may not be registered in Prefect. " ++
    "Please check that the Prefect deployment exists and is available."

/-- The email_to enrichment body shared by both branches of start_recipe:
read email_to (absent treated as empty list, a non-list truthy value
wrapped into a singleton), and append the authenticated email if missing. -/
def injectEmailList (final_params : Params) (auth_email : String) : Params :=
  let email_list : List String :=
    match paramsGet final_params "email_to" with
    | none => []
    | some (.l vs) => vs
    | some (.s v) => if v == "" then [] else [v]
  if email_list.contains auth_email then final_params
  else paramsSet final_params "email_to" (.l (email_list ++ [auth_email]))

/-- start_recipe's email injection: applies when the params model declares
an email_to field, or else when the validated parameters already contain
an email_to key. -/
def injectEmail (fm : FlowMeta) (final_params : Params) (auth_email : String) :
    Params :=
  if fm.emailToField then injectEmailList final_params auth_email
  else if (paramsGet final_params "email_to").isSome then
    injectEmailList final_params auth_email
  else final_params

/-- Engine calls issued by start_recipe, in order. -/
inductive EngineOp where
  | readFlowRuns (tags : List String) (states : List StateType)
  | readDeployments (names : List String)
  | createFlowRun (deployment : String) (parameters : PrefectParams)
      (tags : List String)
deriving DecidableEq, Repr

/-- The parameter-validation stage of start_recipe: instantiate the flow's
params model if it has one, translating a pydantic ValidationError into
the per-field user-facing message and any other exception into the generic
message, both carrying the flow's expected schema. -/
def validateStage (reg : FlowRegistry) (recipe_name : String) (flow_meta : FlowMeta)
    (parameters : Params) : Except PyErr Params :=
  match flow_meta.params_model with
  | none => .ok parameters
  | some pm =>
      match pm parameters with
      | .ok validated => .ok validated
      | .validationError errs =>
          .error (.valueError (paramValidationMsg recipe_name errs
            (get_flow_schema reg recipe_name)))
      | .otherExn m =>
          .error (.valueError (paramGenericErrMsg recipe_name parameters m
            (get_flow_schema reg recipe_name)))

/-- The email-enrichment stage of start_recipe: only runs when both an
authenticated email and a params model are present (Python truthiness on
both). -/
def emailStage (fm : FlowMeta) (auth_email : Option String)
    (final_params : Params) : Params :=
  match auth_email, fm.params_model with
  | some em, some _ =>
      if em == "" then final_params else injectEmail fm final_params em
  | _, _ => final_params

/-- The run the engine creates for a submission (id, name and created stamp
assigned by the engine). -/
def createdRun (eng : Engine) (prefect_parameters : PrefectParams)
    (tags2 : List String) : FlowRun :=
  { id := eng.nextRunId, name := eng.nextRunName, tags := tags2,
    state_type := .SCHEDULED, parent_task_run_id := none,
    created := eng.clock, parameters := some prefect_parameters }

/-- chef.py `start_recipe`. Mirrors the source order: flow lookup,
admin-only check, parameter validation, email enrichment, quota check,
deployment lookup, run creation. The Python `tags += BASE_TAGS` statements
in start_recipe and in fetch_runs_by_state mutate the same list object, so
the submitted tag list is tags ++ BASE_TAGS ++ BASE_TAGS. Returns the
result, the engine afterwards, and the engine calls made. -/
def startRecipe (cfg : KitchenConfig) (reg : FlowRegistry) (eng : Engine)
    (recipe_name : String) (tags : List String) (parameters : Params)
    (user_full_text_authorized : Bool) (auth_email : Option String)
    (user_is_admin : Bool) :
    Except PyErr RunDict × Engine × List EngineOp :=
  match get_flow reg recipe_name with
  | none => (.error (.valueError (flowNotFoundMsg recipe_name)), eng, [])
  | some flow_meta =>
    if flow_meta.admin_only && !user_is_admin then
      (.error (.runtimeError (adminOnlyMsg recipe_name)), eng, [])
    else
      match validateStage reg recipe_name flow_meta parameters with
      | .error e => (.error e, eng, [])
      | .ok final_params =>
          let final_params := emailStage flow_meta auth_email final_params
          let tags1 := tags ++ BASE_TAGS
          let active_runs := fetchActiveRuns eng tags1
          let tags2 := tags1 ++ BASE_TAGS
          let ops := [EngineOp.readFlowRuns tags2 PREFECT_ACTIVE_STATES]
          if active_runs.length ≥ cfg.maxUserFlows then
            (.error (.runtimeError (capacityMsg active_runs.length cfg.maxUserFlows)),
              eng, ops)
          else
            let ops := ops ++ [EngineOp.readDeployments [cfg.prefectDeployment]]
            if !(eng.deployments.contains cfg.prefectDeployment) then
              (.error (.valueError (noDeploymentMsg cfg.prefectDeployment)), eng, ops)
            else
              let prefect_parameters : PrefectParams :=
                { recipe_name := recipe_name, tags := tags2,
                  parameters := final_params,
                  return_restricted_artifacts := user_full_text_authorized }
              let run := createdRun eng prefect_parameters tags2
              let eng2 := { eng with
                runs := eng.runs ++ [run], nextRunId := eng.nextRunId + 1,
                clock := eng.clock + 1 }
              (.ok (runToDict run), eng2,
                ops ++ [EngineOp.createFlowRun cfg.prefectDeployment
                  prefect_parameters tags2])

/-! ## Artifact materialization (flow.py _create_artifacts, kitchen_base) -/

/-- A table row and a table, as passed to create_table_artifact. -/
abbrev Row : Type := List (String × String)
abbrev Table : Type := List Row

/-- A sous_chef BaseArtifact instance: its to_table() rendering and its
artifact_type label. -/
structure ArtifactObj where
  to_table : Table
  artifact_type : String
deriving DecidableEq, Repr

/-- A value in the legacy data-format branches of _create_artifacts:
a list (used as rows directly), a dict (a one-row table), a DataFrame
(its to_dict("records") rows), or anything else (a one-row value table). -/
inductive FlowValue where
  | vlist (rows : Table)
  | vdict (row : Row)
  | vframe (rows : Table)
  | vscalar (v : String)
deriving DecidableEq, Repr

/-- The "data" payload of one formatted entry, split along the branches of
_create_artifacts: a 2-tuple (result, artifact), a bare BaseArtifact, or a
legacy value. -/
inductive FlowData where
  | vtuple2 (result : Option FlowValue) (artifact : Option ArtifactObj)
  | vartifact (a : ArtifactObj)
  | vplain (v : FlowValue)
deriving DecidableEq, Repr

/-- The legacy table conversion (list / dict / DataFrame / else). -/
def tableOfValue : FlowValue → Table
  | .vlist rows => rows
  | .vdict row => [row]
  | .vframe rows => rows
  | .vscalar v => [[("value", v)]]

/-- flow.py sanitizes artifact keys with re.sub("[^0-9a-zA-Z]+", "-", ...)
on the lowercased task name: here the character class is quantified, so a
whole run of non-alphanumerics becomes a single dash. -/
def artifactSanitize (task_name : String) : String :=
  String.mk (collapseRunsToDash (pyLower task_name).data)

/-- The artifact store port: whether (and with what exception message)
publishing under a given key fails. -/
structure PublishEnv where
  failure : String → Option String

/-- Prefect create_table_artifact as seen through the port: raises the
configured exception or succeeds. -/
def createTableArtifact (env : PublishEnv) (key : String) (_table : Table)
    (_description : String) : Except String Unit :=
  match env.failure key with
  | some msg => .error msg
  | none => .ok ()

/-- What one create_table_artifact call site produced: a stored artifact, or
the caught-and-logged failure (the `except` branch that prints a warning
and continues). -/
inductive PublishEvent where
  | published (key : String) (table : Table) (description : String)
  | failed (key : String) (error : String)
deriving DecidableEq, Repr

/-- One create call wrapped in its try/except. -/
def tryCreate (env : PublishEnv) (key : String) (table : Table)
    (description : String) : PublishEvent :=
  match createTableArtifact env key table description with
  | .ok _ => .published key table description
  | .error e => .failed key e

/-- The body of the _create_artifacts loop for one entry, following the
source's branches; every create call is individually wrapped, so the body
never raises. -/
def processEntry (env : PublishEnv) (flow_run_name task_name : String)
    (output : FmtEntry FlowData) : List PublishEvent :=
  let key := artifactSanitize task_name
  match output.data with
  | .vtuple2 result artifact =>
      (match artifact with
       | some a =>
           [tryCreate env (flow_run_name ++ "-" ++ (key ++ "-artifact"))
             a.to_table (task_name ++ " - " ++ a.artifact_type)]
       | none => []) ++
      (match result with
       | some r =>
           [tryCreate env (flow_run_name ++ "-" ++ key) (tableOfValue r) task_name]
       | none => [])
  | .vartifact a =>
      [tryCreate env (flow_run_name ++ "-" ++ key) a.to_table
        (task_name ++ " (" ++ a.artifact_type ++ ")")]
  | .vplain v =>
      [tryCreate env (flow_run_name ++ "-" ++ key) (tableOfValue v) task_name]

/-- flow.py `_create_artifacts`: process each formatted entry in order. -/
def createArtifacts (env : PublishEnv)
    (formatted_data : List (String × FmtEntry FlowData))
    (flow_run_name : String) : List PublishEvent :=
  match formatted_data with
  | [] => []
  | (task_name, output) :: rest =>
      processEntry env flow_run_name task_name output ++
        createArtifacts env rest flow_run_name

/-- The tail of flow.py `kitchen_base` after the flow executable returned
and its output was formatted: filter restricted entries, create artifacts,
and return the filtered mapping as the run result. -/
def kitchenBaseAfterFormat (env : PublishEnv)
    (formatted_data : List (String × FmtEntry FlowData))
    (return_restricted_artifacts : Bool) (flow_run_name : String) :
    List PublishEvent × List (String × FmtEntry FlowData) :=
  let filtered_data := filterRestrictedFields formatted_data return_restricted_artifacts
  (createArtifacts env filtered_data flow_run_name, filtered_data)

/-! ## Observation helpers and concrete environments -/

/-- The class of a Python exception, with the message erased. -/
inductive PyErrKind where
  | valueErrorKind
  | runtimeErrorKind
deriving DecidableEq, Repr

def PyErr.kind : PyErr → PyErrKind
  | .valueError _ => .valueErrorKind
  | .runtimeError _ => .runtimeErrorKind

/-- A lifecycle result with error messages erased: what remains is the
success value or the exception class. -/
def resultKind (r : Except PyErr SetStateOutcome) :
    Except PyErrKind SetStateOutcome :=
  match r with
  | .ok v => .ok v
  | .error e => .error e.kind

/-- A registry holding one ordinary flow with no params model. -/
def demoRegistry : FlowRegistry :=
  { flows := [("test-recipe", {})], schemas := [] }

/-- A pydantic params model that rejects every parameter set with one
field error. -/
def failingModel : Params → PydanticOutcome :=
  fun _ => .validationError [("email_to", "field required")]

/-- A registry holding one flow whose params model always rejects. -/
def demoRegistryV : FlowRegistry :=
  { flows := [("valrecipe", { params_model := some failingModel })],
    schemas := [("valrecipe", "schema-repr")] }

/-- An engine with no runs, the kitchen-base deployment registered, and a
compliant state API. -/
def demoEngine : Engine :=
  { runs := [], deployments := ["kitchen-base"], nextRunId := 7,
    nextRunName := "brave-otter", clock := 0,
    setStateOutcome := fun _ _ => .accept }

/-- An active run owned (by tag) by user X. -/
def runUserX : FlowRun :=
  { id := 1, name := "amber-fox", tags := ["kitchen", "user-x"],
    state_type := .RUNNING, parent_task_run_id := none, created := 0,
    parameters := none }

/-- An active run owned (by tag) by user Y. -/
def runUserY : FlowRun :=
  { id := 1, name := "coral-ibis", tags := ["kitchen", "user-y"],
    state_type := .RUNNING, parent_task_run_id := none, created := 0,
    parameters := none }

def demoEngineX : Engine := { demoEngine with runs := [runUserX] }

def demoEngineY : Engine := { demoEngine with runs := [runUserY] }

/-- Like demoEngineY but the engine refuses state transitions. -/
def demoEngineAbort : Engine :=
  { demoEngineY with setStateOutcome := fun _ _ => .abort "Run already finished" }

/-- The canonical string form of UUID 1. -/
def uuidOne : String := "00000000-0000-0000-0000-000000000001"

/-- Three plain formatted entries, none restricted. -/
def demoFormatted : List (String × FmtEntry FlowData) :=
  [("a", { data := .vplain (.vscalar "1"), restricted := some false }),
   ("b", { data := .vplain (.vscalar "2"), restricted := some false }),
   ("c", { data := .vplain (.vscalar "3"), restricted := some false })]

/-- An artifact store where publishing under the key of entry "b" raises. -/
def demoPublishEnv : PublishEnv :=
  { failure := fun k => if k == "run-1-b" then some "boom" else none }

/-- The run that starting "test-recipe" on demoEngine creates. -/
def demoCreatedRun : FlowRun :=
  { id := 7, name := "brave-otter",
    tags := ["user-alice-1234abcd", "kitchen", "kitchen"],
    state_type := .SCHEDULED, parent_task_run_id := none, created := 0,
    parameters := some
      { recipe_name := "test-recipe",
        tags := ["user-alice-1234abcd", "kitchen", "kitchen"],
        parameters := [], return_restricted_artifacts := false } }

/-- The full result of that start_recipe call. -/
def demoStartTriple : Except PyErr RunDict × Engine × List EngineOp :=
  startRecipe {} demoRegistry demoEngine "test-recipe" ["user-alice-1234abcd"]
    [] false none false

end SousChefKitchen

/-! # Theorems -/

namespace SousChefKitchen

/-- SHA-1 sanity check against the standard test vector. -/
theorem sha1Hex_abc : sha1Hex "abc" = "a9993e364706816aba3e25717850c26c9cd0d89d" := by
  rfl

theorem buildFiltered_eq_filter {α : Type} (fd : List (String × FmtEntry α)) :
    filterRestrictedFields.buildFiltered fd =
      fd.filter (fun p => !p.2.restrictedFlag) := by
  induction fd with
  | nil => rfl
  | cons hd tl ih =>
      cases hd with
      | mk k o =>
        by_cases h : o.restrictedFlag
        · simp [filterRestrictedFields.buildFiltered, List.filter, h, ih]
        · simp [filterRestrictedFields.buildFiltered, List.filter, h, ih]

end SousChefKitchen

/-- Claim C1: for every formatted output mapping whose entries each carry a
restricted boolean (absent treated as false), filtering with
return_restricted=false returns exactly the sub-mapping of entries whose
restricted flag is false, each surviving entry unchanged; filtering with
return_restricted=true returns the whole mapping unchanged. -/
theorem filterRestrictedFields_correct {α : Type}
    (fd : List (String × SousChefKitchen.FmtEntry α)) :
    SousChefKitchen.filterRestrictedFields fd true = fd ∧
    SousChefKitchen.filterRestrictedFields fd false =
      fd.filter (fun p => !p.2.restrictedFlag) ∧
    ∀ k (o : SousChefKitchen.FmtEntry α),
      (k, o) ∈ SousChefKitchen.filterRestrictedFields fd false ↔
        ((k, o) ∈ fd ∧ o.restrictedFlag = false) := by
  refine ⟨rfl, ?_, ?_⟩
  · simp [SousChefKitchen.filterRestrictedFields,
      SousChefKitchen.buildFiltered_eq_filter]
  · intro k o
    simp [SousChefKitchen.filterRestrictedFields,
      SousChefKitchen.buildFiltered_eq_filter, List.mem_filter]

/-- Claim C4 (counterexample): on an email whose local part contains a run of
two non-alphanumeric characters, the code's per-character replacement
differs from the spec's run-collapsing replacement, so generate_tag_slug
does not match the algorithm the claim states. -/
theorem generate_tag_slug_counterexample :
    SousChefKitchen.generate_tag_slug "a..b@x.com" "k" ≠
      SousChefKitchen.specTagSlug "a..b@x.com" "k" := by
  have h1 : SousChefKitchen.generate_tag_slug "a..b@x.com" "k" =
      "user-a--b-5c16e6c7" := by rfl
  have h2 : SousChefKitchen.specTagSlug "a..b@x.com" "k" =
      "user-a-b-5c16e6c7" := by rfl
  rw [h1, h2]
  decide

/-- Claim C4 (amended): generate_tag_slug(email, api_key) equals
"user-" ++ s ++ "-" ++ d where s is the email's local part (prefix before
the first "@", or the whole string if no "@") lowercased with each
individual non-alphanumeric character replaced by a "-" (a run of n such
characters becomes n dashes), and d is the first 8 hex characters of SHA-1
over "email:api_key"; the concrete scenario
generate_tag_slug("paige@mediacloud.org", "key123") =
"user-paige-" ++ first8hex(sha1("paige@mediacloud.org:key123")) holds. -/
theorem generate_tag_slug_amended :
    (∀ email api_key : String,
      SousChefKitchen.generate_tag_slug email api_key =
        "user-" ++
          SousChefKitchen.pySubNonAlnumEach
            (SousChefKitchen.pyLower (SousChefKitchen.strBefore email '@')) ++
          "-" ++
          SousChefKitchen.strTake
            (SousChefKitchen.sha1Hex (email ++ ":" ++ api_key)) 8) ∧
    SousChefKitchen.generate_tag_slug "paige@mediacloud.org" "key123" =
      "user-paige-6010c77b" := by
  constructor
  · intro email api_key
    unfold SousChefKitchen.generate_tag_slug
    by_cases h : SousChefKitchen.strHasChar email '@'
    · simp [h]
    · have hb : SousChefKitchen.strBefore email '@' = email := by
        have hall : ∀ x ∈ email.data, (x != '@') = true := by
          intro x hx
          by_contra hne
          have hx2 : (x == '@') = true := by
            cases hbe : x == '@' with
            | true => rfl
            | false => exact absurd (by simp [bne, hbe]) hne
          exact h (List.any_eq_true.mpr ⟨x, hx, hx2⟩)
        unfold SousChefKitchen.strBefore
        rw [List.takeWhile_eq_self_iff.mpr hall]
      rw [hb]
      simp [h]
  · rfl

/-- Claim C2 (code bug): validate_auth's success path first sets
media_cloud_authorized on the pydantic status object and then assigns
media_cloud_staff — a name the model in shared/models.py does not declare,
so pydantic raises inside the try block and the blanket except returns the
partially mutated status. The returned status therefore has
sous_chef_authorized = false (and no staff flags or tag slug), and
authorized is false for every input, contradicting the function's own
docstring and the fields api.py reads from the result. -/
theorem validate_auth_code_bug :
    SousChefKitchen.validate_auth
        (SousChefKitchen.IdentityResponse.ok
          { message := none, is_staff := some false })
        "paige@mediacloud.org" "key123" =
      { media_cloud_authorized := true, sous_chef_authorized := false } ∧
    ∀ (identity : SousChefKitchen.IdentityResponse) (email key : String),
      (SousChefKitchen.validate_auth identity email key).authorized = false := by
  constructor
  · rfl
  · intro identity email key
    unfold SousChefKitchen.validate_auth
    cases hek : (email == "" || key == "") with
    | true => simp [hek, SousChefKitchen.SousChefKitchenAuthStatus.authorized]
    | false =>
        cases identity with
        | exn m =>
            simp [hek, SousChefKitchen.SousChefKitchenAuthStatus.authorized]
        | ok p =>
            cases hm : (p.message == some "User Not Found") with
            | true =>
                simp [hek, hm, SousChefKitchen.SousChefKitchenAuthStatus.authorized]
            | false =>
                simp only [hek, hm, Bool.false_eq_true, if_false]
                rfl

namespace SousChefKitchen

/-- Looking a string key up in a dict whose keys are all UUID objects never
succeeds: Python equality between a UUID and a string is false. -/
theorem pyDictGet_uuid_str_none (l : List RunDict) (rid : String) :
    pyDictGet (l.map (fun r => (PyKey.uuid r.id, r))) (PyKey.str rid) = none := by
  have hf : ((l.map (fun r => (PyKey.uuid r.id, r))).reverse.find?
      (fun p => p.1 == PyKey.str rid)) = none := by
    rw [List.find?_eq_none]
    intro x hx
    rw [List.mem_reverse] at hx
    obtain ⟨r, _, rfl⟩ := List.mem_map.mp hx
    simp
  simp [pyDictGet, hf]

end SousChefKitchen

/-- Claim C8 (code bug): pause_recipe_run and resume_recipe_run index the
dictionary of active (resp. paused) runs by the runs' UUID objects but look
up the caller's string run_id, so the lookup never succeeds: every pause
and every resume raises the "unable to find" ValueError and no pause or
resume request ever reaches the engine, for every engine state, recipe
name, run id and tag list. -/
theorem pause_resume_never_find_run :
    ∀ (eng : SousChefKitchen.Engine) (recipe_name run_id : String)
      (tags : List String),
      SousChefKitchen.pauseRecipeRun eng recipe_name run_id tags =
        (.error (.valueError (SousChefKitchen.pauseNotFoundMsg run_id recipe_name)),
          []) ∧
      SousChefKitchen.resumeRecipeRun eng recipe_name run_id tags =
        (.error (.valueError (SousChefKitchen.resumeNotFoundMsg run_id recipe_name)),
          []) := by
  intro eng recipe_name run_id tags
  constructor
  · unfold SousChefKitchen.pauseRecipeRun
    simp only [SousChefKitchen.pyDictGet_uuid_str_none]
  · unfold SousChefKitchen.resumeRecipeRun
    simp only [SousChefKitchen.pyDictGet_uuid_str_none]

/-- Claim C10: cancel_recipe_run uses its recipe_name argument only inside
error-message text: for any two recipe names the outcome has the same
success-or-failure kind, the same engine state-transition requests, and the
same success value. -/
theorem cancel_ignores_recipe_name :
    ∀ (eng : SousChefKitchen.Engine) (recipe1 recipe2 run_id : String)
      (tags : List String),
      SousChefKitchen.resultKind
          (SousChefKitchen.cancelRecipeRun eng recipe1 run_id tags).1 =
        SousChefKitchen.resultKind
          (SousChefKitchen.cancelRecipeRun eng recipe2 run_id tags).1 ∧
      (SousChefKitchen.cancelRecipeRun eng recipe1 run_id tags).2 =
        (SousChefKitchen.cancelRecipeRun eng recipe2 run_id tags).2 ∧
      ∀ v, ((SousChefKitchen.cancelRecipeRun eng recipe1 run_id tags).1 = .ok v ↔
        (SousChefKitchen.cancelRecipeRun eng recipe2 run_id tags).1 = .ok v) := by
  intro eng recipe1 recipe2 run_id tags
  unfold SousChefKitchen.cancelRecipeRun
  cases hf : SousChefKitchen.fetchRunById eng run_id with
  | error e =>
      simp [SousChefKitchen.resultKind, SousChefKitchen.PyErr.kind]
  | ok rd =>
      cases hall : ((if tags.isEmpty then SousChefKitchen.BASE_TAGS
          else tags ++ SousChefKitchen.BASE_TAGS).all
            (fun t => rd.tags.contains t)) with
      | false =>
          simp [hall, SousChefKitchen.resultKind, SousChefKitchen.PyErr.kind]
      | true =>
          cases ho : eng.setStateOutcome rd.id SousChefKitchen.StateType.CANCELLING with
          | accept =>
              simp [hall, ho, SousChefKitchen.resultKind, SousChefKitchen.PyErr.kind]
          | abort reason =>
              simp [hall, ho, SousChefKitchen.resultKind, SousChefKitchen.PyErr.kind]

/-- Claim C3 (counterexample): a successful start_recipe submission does not
tag the created run with the recipe name. With an empty engine and the
flow registered, starting "test-recipe" with the caller tag list holding
the user's tag slug creates exactly one run, its tags are the caller tags
plus BASE_TAGS (appended twice by the aliased list mutations), and
"test-recipe" is not among them. -/
theorem startRecipe_tags_counterexample :
    ((SousChefKitchen.startRecipe {} SousChefKitchen.demoRegistry
        SousChefKitchen.demoEngine "test-recipe" ["user-alice-1234abcd"] []
        false none false).2.1.runs.map (fun r => r.tags)) =
      [["user-alice-1234abcd", "kitchen", "kitchen"]] ∧
    ((SousChefKitchen.startRecipe {} SousChefKitchen.demoRegistry
        SousChefKitchen.demoEngine "test-recipe" ["user-alice-1234abcd"] []
        false none false).2.1.runs.map (fun r => r.tags.contains "test-recipe")) =
      [false] := by
  constructor
  · rfl
  · rfl

/-- Claim C3 (amended): every run created by a successful start_recipe call
carries exactly the caller-supplied tags (which the API layer populates
with the user's tag slug) together with BASE_TAGS; the recipe name is not
added to the run's tags. -/
theorem startRecipe_tags_amended :
    ∀ (cfg : SousChefKitchen.KitchenConfig) (reg : SousChefKitchen.FlowRegistry)
      (eng : SousChefKitchen.Engine) (recipe_name : String) (tags : List String)
      (parameters : SousChefKitchen.Params) (ufta : Bool) (auth_email : Option String)
      (admin : Bool) (run : SousChefKitchen.RunDict)
      (eng2 : SousChefKitchen.Engine) (ops : List SousChefKitchen.EngineOp),
      SousChefKitchen.startRecipe cfg reg eng recipe_name tags parameters ufta
          auth_email admin = (.ok run, eng2, ops) →
      ∃ fr : SousChefKitchen.FlowRun,
        eng2.runs = eng.runs ++ [fr] ∧ run = SousChefKitchen.runToDict fr ∧
        ∀ t, (t ∈ fr.tags ↔ (t ∈ tags ∨ t ∈ SousChefKitchen.BASE_TAGS)) := by
  intro cfg reg eng recipe_name tags parameters ufta auth_email admin run eng2 ops h
  unfold SousChefKitchen.startRecipe at h
  split at h
  · exact absurd h (by simp)
  · split at h
    · exact absurd h (by simp)
    · split at h
      · exact absurd h (by simp)
      · simp only [] at h
        split at h
        · exact absurd h (by simp)
        · split at h
          · exact absurd h (by simp)
          · rw [Prod.mk.injEq, Prod.mk.injEq] at h
            obtain ⟨h1, h2, h3⟩ := h
            injection h1 with h1
            refine ⟨_, ?_, h1.symm, ?_⟩
            · subst h2
              rfl
            · intro t
              simp only [SousChefKitchen.createdRun, List.mem_append]
              constructor
              · intro ht
                rcases ht with (ht | ht) | ht
                · exact Or.inl ht
                · exact Or.inr ht
                · exact Or.inr ht
              · intro ht
                rcases ht with ht | ht
                · exact Or.inl (Or.inl ht)
                · exact Or.inl (Or.inr ht)

/-- Witness for claim C3's amended theorem at the concrete start above. -/
theorem startRecipe_tags_amended_witness :
    ∃ fr : SousChefKitchen.FlowRun,
      SousChefKitchen.demoStartTriple.2.1.runs =
        SousChefKitchen.demoEngine.runs ++ [fr] ∧
      SousChefKitchen.runToDict SousChefKitchen.demoCreatedRun =
        SousChefKitchen.runToDict fr ∧
      ∀ t, (t ∈ fr.tags ↔
        (t ∈ ["user-alice-1234abcd"] ∨ t ∈ SousChefKitchen.BASE_TAGS)) :=
  startRecipe_tags_amended {} SousChefKitchen.demoRegistry
    SousChefKitchen.demoEngine "test-recipe" ["user-alice-1234abcd"] [] false
    none false (SousChefKitchen.runToDict SousChefKitchen.demoCreatedRun)
    SousChefKitchen.demoStartTriple.2.1 SousChefKitchen.demoStartTriple.2.2 rfl

/-- Claim C5: when the flow exists, the admin gate passes, and the flow's
params model rejects the raw parameters with a pydantic ValidationError,
start_recipe raises the validation ValueError carrying the per-field
messages and the flow's expected schema, makes no engine call at all (in
particular the active-run quota is never consulted), leaves the engine
unchanged, and creates no run. -/
theorem startRecipe_validation_before_admission :
    ∀ (cfg : SousChefKitchen.KitchenConfig) (reg : SousChefKitchen.FlowRegistry)
      (eng : SousChefKitchen.Engine) (recipe_name : String) (tags : List String)
      (parameters : SousChefKitchen.Params) (ufta : Bool)
      (auth_email : Option String) (admin : Bool) (fm : SousChefKitchen.FlowMeta)
      (pm : SousChefKitchen.Params → SousChefKitchen.PydanticOutcome)
      (errs : List (String × String)),
      SousChefKitchen.get_flow reg recipe_name = some fm →
      (fm.admin_only && !admin) = false →
      fm.params_model = some pm →
      pm parameters = .validationError errs →
      SousChefKitchen.startRecipe cfg reg eng recipe_name tags parameters ufta
          auth_email admin =
        (.error (.valueError (SousChefKitchen.paramValidationMsg recipe_name errs
          (SousChefKitchen.get_flow_schema reg recipe_name))), eng, []) := by
  intro cfg reg eng recipe_name tags parameters ufta auth_email admin fm pm errs
    hflow hadmin hpm herr
  unfold SousChefKitchen.startRecipe SousChefKitchen.validateStage
  simp [hflow, hadmin, hpm, herr]

/-- Witness for claim C5: the rejected start happens on an engine where the
user is already at capacity, yet the result is the validation error, the
engine is untouched and no engine call (quota query or run creation) was
made. -/
theorem startRecipe_validation_before_admission_witness :
    SousChefKitchen.startRecipe {} SousChefKitchen.demoRegistryV
        SousChefKitchen.demoEngineX "valrecipe" ["user-x"] [] false none false =
      (.error (.valueError (SousChefKitchen.paramValidationMsg "valrecipe"
        [("email_to", "field required")]
        (SousChefKitchen.get_flow_schema SousChefKitchen.demoRegistryV
          "valrecipe"))), SousChefKitchen.demoEngineX, []) :=
  startRecipe_validation_before_admission {} SousChefKitchen.demoRegistryV
    SousChefKitchen.demoEngineX "valrecipe" ["user-x"] [] false none false
    { params_model := some SousChefKitchen.failingModel }
    SousChefKitchen.failingModel [("email_to", "field required")] rfl rfl rfl rfl

/-- Claim C6: past flow lookup, the admin gate and parameter validation,
start_recipe is denied with the RuntimeError reporting the active count
and the quota exactly when the number of active-state runs carrying
BASE_TAGS plus the caller's tags reaches the configured quota; in that
case the engine is left unchanged (no run is created) and the only engine
call made is the active-run query; below the quota, with the deployment
registered, a run is created. -/
theorem startRecipe_admission_quota :
    ∀ (cfg : SousChefKitchen.KitchenConfig) (reg : SousChefKitchen.FlowRegistry)
      (eng : SousChefKitchen.Engine) (recipe_name : String) (tags : List String)
      (parameters : SousChefKitchen.Params) (ufta : Bool)
      (auth_email : Option String) (admin : Bool) (fm : SousChefKitchen.FlowMeta)
      (fp : SousChefKitchen.Params),
      SousChefKitchen.get_flow reg recipe_name = some fm →
      (fm.admin_only && !admin) = false →
      SousChefKitchen.validateStage reg recipe_name fm parameters = .ok fp →
      (((SousChefKitchen.startRecipe cfg reg eng recipe_name tags parameters
            ufta auth_email admin).1 =
          .error (.runtimeError (SousChefKitchen.capacityMsg
            (SousChefKitchen.fetchActiveRuns eng
              (tags ++ SousChefKitchen.BASE_TAGS)).length cfg.maxUserFlows))) ↔
        cfg.maxUserFlows ≤ (SousChefKitchen.fetchActiveRuns eng
          (tags ++ SousChefKitchen.BASE_TAGS)).length) ∧
      (cfg.maxUserFlows ≤ (SousChefKitchen.fetchActiveRuns eng
          (tags ++ SousChefKitchen.BASE_TAGS)).length →
        (SousChefKitchen.startRecipe cfg reg eng recipe_name tags parameters
            ufta auth_email admin).2.1 = eng ∧
        (SousChefKitchen.startRecipe cfg reg eng recipe_name tags parameters
            ufta auth_email admin).2.2 =
          [SousChefKitchen.EngineOp.readFlowRuns
            (tags ++ SousChefKitchen.BASE_TAGS ++ SousChefKitchen.BASE_TAGS)
            SousChefKitchen.PREFECT_ACTIVE_STATES]) ∧
      ((SousChefKitchen.fetchActiveRuns eng
          (tags ++ SousChefKitchen.BASE_TAGS)).length < cfg.maxUserFlows →
        eng.deployments.contains cfg.prefectDeployment = true →
        ∃ fr : SousChefKitchen.FlowRun,
          (SousChefKitchen.startRecipe cfg reg eng recipe_name tags parameters
              ufta auth_email admin).1 = .ok (SousChefKitchen.runToDict fr) ∧
          (SousChefKitchen.startRecipe cfg reg eng recipe_name tags parameters
              ufta auth_email admin).2.1.runs = eng.runs ++ [fr]) := by
  intro cfg reg eng recipe_name tags parameters ufta auth_email admin fm fp
    hflow hadmin hval
  by_cases hq : cfg.maxUserFlows ≤
      (SousChefKitchen.fetchActiveRuns eng (tags ++ SousChefKitchen.BASE_TAGS)).length
  · refine ⟨⟨fun _ => hq, fun _ => ?_⟩, fun _ => ?_, fun hlt _ => ?_⟩
    · unfold SousChefKitchen.startRecipe
      simp [hflow, hadmin, hval, ge_iff_le, hq]
    · unfold SousChefKitchen.startRecipe
      simp [hflow, hadmin, hval, ge_iff_le, hq]
    · exact absurd hq (Nat.not_le.mpr hlt)
  · have hlt := Nat.lt_of_not_le hq
    refine ⟨⟨fun heq => ?_, fun hle => absurd hle hq⟩, fun hle => absurd hle hq,
      fun _ hdep => ?_⟩
    · exfalso
      revert heq
      unfold SousChefKitchen.startRecipe
      by_cases hdep : cfg.prefectDeployment ∈ eng.deployments
      · simp [hflow, hadmin, hval, ge_iff_le, hq, hdep]
      · simp [hflow, hadmin, hval, ge_iff_le, hq, hdep]
    · have hdep2 : cfg.prefectDeployment ∈ eng.deployments := by
        simpa using hdep
      refine ⟨SousChefKitchen.createdRun eng
        { recipe_name := recipe_name,
          tags := tags ++ SousChefKitchen.BASE_TAGS ++ SousChefKitchen.BASE_TAGS,
          parameters := SousChefKitchen.emailStage fm auth_email fp,
          return_restricted_artifacts := ufta }
        (tags ++ SousChefKitchen.BASE_TAGS ++ SousChefKitchen.BASE_TAGS), ?_, ?_⟩
      · unfold SousChefKitchen.startRecipe
        simp [hflow, hadmin, hval, ge_iff_le, hq, hdep2,
          SousChefKitchen.createdRun, SousChefKitchen.emailStage]
      · unfold SousChefKitchen.startRecipe
        simp [hflow, hadmin, hval, ge_iff_le, hq, hdep2,
          SousChefKitchen.createdRun, SousChefKitchen.emailStage]

/-- Witness for claim C6: with quota 1 and one active run tagged for user X,
a second start for X is denied with the 1/1 capacity error; a start for
user Y on the same engine succeeds and appends a run. -/
theorem startRecipe_admission_quota_witness :
    ((SousChefKitchen.startRecipe {} SousChefKitchen.demoRegistry
        SousChefKitchen.demoEngineX "test-recipe" ["user-x"] [] false none
        false).1 =
      .error (.runtimeError (SousChefKitchen.capacityMsg 1 1))) ∧
    ∃ fr : SousChefKitchen.FlowRun,
      (SousChefKitchen.startRecipe {} SousChefKitchen.demoRegistry
          SousChefKitchen.demoEngineX "test-recipe" ["user-y"] [] false none
          false).1 = .ok (SousChefKitchen.runToDict fr) ∧
      (SousChefKitchen.startRecipe {} SousChefKitchen.demoRegistry
          SousChefKitchen.demoEngineX "test-recipe" ["user-y"] [] false none
          false).2.1.runs = SousChefKitchen.demoEngineX.runs ++ [fr] :=
  ⟨(startRecipe_admission_quota {} SousChefKitchen.demoRegistry
      SousChefKitchen.demoEngineX "test-recipe" ["user-x"] [] false none false
      {} [] rfl rfl rfl).1.mpr (by decide),
   (startRecipe_admission_quota {} SousChefKitchen.demoRegistry
      SousChefKitchen.demoEngineX "test-recipe" ["user-y"] [] false none false
      {} [] rfl rfl rfl).2.2 (by decide) (by decide)⟩

/-- Claim C7 (counterexample): the two NotFound-style failures of cancel are
distinguishable by the caller. For the same caller (user X, same run id),
cancelling against an engine with no such run and against an engine whose
run 1 belongs to user Y produce different ValueError messages — the second
even includes the run's actual tags — refuting "the caller cannot
distinguish the two cases". -/
theorem cancel_messages_counterexample :
    (SousChefKitchen.cancelRecipeRun SousChefKitchen.demoEngine "r"
        SousChefKitchen.uuidOne ["user-x"]).1 ≠
      (SousChefKitchen.cancelRecipeRun SousChefKitchen.demoEngineY "r"
        SousChefKitchen.uuidOne ["user-x"]).1 := by
  decide

/-- Claim C7 (amended): cancel fails with a ValueError both when no run with
the given id exists and when the run exists but lacks owner_tags plus
BASE_TAGS — the same exception class, though with different messages (the
tag-mismatch message includes the run's actual tags); with empty owner_tags
only BASE_TAGS is required; on a permitted run a CANCELLING transition is
requested; an engine ABORT surfaces the engine's reason as a RuntimeError. -/
theorem cancel_behavior_amended :
    ∀ (eng : SousChefKitchen.Engine) (recipe_name run_id : String)
      (tags : List String),
      (∀ e, SousChefKitchen.fetchRunById eng run_id = .error e →
        SousChefKitchen.cancelRecipeRun eng recipe_name run_id tags =
          (.error (.valueError (SousChefKitchen.cancelNotFoundMsg run_id
            recipe_name (SousChefKitchen.errStr e))), [])) ∧
      (∀ rd, SousChefKitchen.fetchRunById eng run_id = .ok rd →
        ((if tags.isEmpty then SousChefKitchen.BASE_TAGS
            else tags ++ SousChefKitchen.BASE_TAGS).all
          (fun t => rd.tags.contains t)) = false →
        SousChefKitchen.cancelRecipeRun eng recipe_name run_id tags =
          (.error (.valueError (SousChefKitchen.cancelTagsMsg run_id
            (if tags.isEmpty then SousChefKitchen.BASE_TAGS
              else tags ++ SousChefKitchen.BASE_TAGS) rd.tags)), [])) ∧
      (∀ rd reason, SousChefKitchen.fetchRunById eng run_id = .ok rd →
        ((if tags.isEmpty then SousChefKitchen.BASE_TAGS
            else tags ++ SousChefKitchen.BASE_TAGS).all
          (fun t => rd.tags.contains t)) = true →
        eng.setStateOutcome rd.id SousChefKitchen.StateType.CANCELLING =
          .abort reason →
        SousChefKitchen.cancelRecipeRun eng recipe_name run_id tags =
          (.error (.runtimeError (SousChefKitchen.cancelAbortMsg reason)),
            [.setState rd.id SousChefKitchen.StateType.CANCELLING])) ∧
      (∀ rd, SousChefKitchen.fetchRunById eng run_id = .ok rd →
        ((if tags.isEmpty then SousChefKitchen.BASE_TAGS
            else tags ++ SousChefKitchen.BASE_TAGS).all
          (fun t => rd.tags.contains t)) = true →
        eng.setStateOutcome rd.id SousChefKitchen.StateType.CANCELLING =
          .accept →
        SousChefKitchen.cancelRecipeRun eng recipe_name run_id tags =
          (.ok .accept,
            [.setState rd.id SousChefKitchen.StateType.CANCELLING])) := by
  intro eng recipe_name run_id tags
  refine ⟨?_, ?_, ?_, ?_⟩
  · intro e he
    unfold SousChefKitchen.cancelRecipeRun
    rw [he]
  · intro rd hrd hall
    unfold SousChefKitchen.cancelRecipeRun
    rw [hrd]
    dsimp only
    rw [hall]
    rfl
  · intro rd reason hrd hall habort
    unfold SousChefKitchen.cancelRecipeRun
    rw [hrd]
    dsimp only
    rw [hall, habort]
    rfl
  · intro rd hrd hall haccept
    unfold SousChefKitchen.cancelRecipeRun
    rw [hrd]
    dsimp only
    rw [hall, haccept]
    rfl

/-- Witness for claim C7's amended theorem: the four scenarios at concrete
engines — missing run, run owned by another user, engine abort, and a
successful owned cancel with its CANCELLING request. -/
theorem cancel_behavior_amended_witness :
    (SousChefKitchen.cancelRecipeRun SousChefKitchen.demoEngine "r"
        SousChefKitchen.uuidOne ["user-x"] =
      (.error (.valueError (SousChefKitchen.cancelNotFoundMsg
        SousChefKitchen.uuidOne "r" SousChefKitchen.objectNotFoundStr)), [])) ∧
    (SousChefKitchen.cancelRecipeRun SousChefKitchen.demoEngineY "r"
        SousChefKitchen.uuidOne ["user-x"] =
      (.error (.valueError (SousChefKitchen.cancelTagsMsg
        SousChefKitchen.uuidOne (["user-x"] ++ SousChefKitchen.BASE_TAGS)
        SousChefKitchen.runUserY.tags)), [])) ∧
    (SousChefKitchen.cancelRecipeRun SousChefKitchen.demoEngineAbort "r"
        SousChefKitchen.uuidOne ["user-y"] =
      (.error (.runtimeError (SousChefKitchen.cancelAbortMsg
        "Run already finished")),
        [.setState 1 SousChefKitchen.StateType.CANCELLING])) ∧
    (SousChefKitchen.cancelRecipeRun SousChefKitchen.demoEngineY "r"
        SousChefKitchen.uuidOne ["user-y"] =
      (.ok .accept, [.setState 1 SousChefKitchen.StateType.CANCELLING])) :=
  ⟨(cancel_behavior_amended SousChefKitchen.demoEngine "r"
      SousChefKitchen.uuidOne ["user-x"]).1
      (.valueError SousChefKitchen.objectNotFoundStr) (by decide),
   (cancel_behavior_amended SousChefKitchen.demoEngineY "r"
      SousChefKitchen.uuidOne ["user-x"]).2.1
      (SousChefKitchen.runToDict SousChefKitchen.runUserY) (by decide)
      (by decide),
   (cancel_behavior_amended SousChefKitchen.demoEngineAbort "r"
      SousChefKitchen.uuidOne ["user-y"]).2.2.1
      (SousChefKitchen.runToDict SousChefKitchen.runUserY)
      "Run already finished" (by decide) (by decide) rfl,
   (cancel_behavior_amended SousChefKitchen.demoEngineY "r"
      SousChefKitchen.uuidOne ["user-y"]).2.2.2
      (SousChefKitchen.runToDict SousChefKitchen.runUserY) (by decide)
      (by decide) rfl⟩

namespace SousChefKitchen

/-- Processing in _create_artifacts is per-entry: every event an entry's own
branch produces appears in the loop's overall output, whatever the other
entries do. -/
theorem mem_createArtifacts_of_mem (env : PublishEnv) (name : String)
    (fd : List (String × FmtEntry FlowData)) (task : String)
    (out : FmtEntry FlowData) (ev : PublishEvent)
    (hmem : (task, out) ∈ fd) (hev : ev ∈ processEntry env name task out) :
    ev ∈ createArtifacts env fd name := by
  revert hmem
  induction fd with
  | nil => intro hmem; cases hmem
  | cons hd tl ih =>
      intro hmem
      rcases List.mem_cons.mp hmem with heq | hmem2
      · subst heq
        exact List.mem_append.mpr (Or.inl hev)
      · exact List.mem_append.mpr (Or.inr (ih hmem2))

end SousChefKitchen

/-- Claim C9: after filtering, artifact creation cannot abort the run: each
create call is individually wrapped, so for every post-filter mapping and
every pattern of publish failures the flow still returns the full
post-filter mapping, and every publication produced by one entry's branch
(in particular the successful publications of entries whose keys do not
fail) is still performed even when publishing another entry raises. -/
theorem artifact_failure_isolation :
    ∀ (env : SousChefKitchen.PublishEnv)
      (fd : List (String × SousChefKitchen.FmtEntry SousChefKitchen.FlowData))
      (rr : Bool) (name : String),
      (SousChefKitchen.kitchenBaseAfterFormat env fd rr name).2 =
        SousChefKitchen.filterRestrictedFields fd rr ∧
      ∀ task out ev,
        (task, out) ∈ SousChefKitchen.filterRestrictedFields fd rr →
        ev ∈ SousChefKitchen.processEntry env name task out →
        ev ∈ (SousChefKitchen.kitchenBaseAfterFormat env fd rr name).1 := by
  intro env fd rr name
  refine ⟨rfl, ?_⟩
  intro task out ev hmem hev
  exact SousChefKitchen.mem_createArtifacts_of_mem env name _ task out ev hmem hev

/-- Witness for claim C9: with three entries whose middle publication
raises, the run result is still the whole post-filter mapping and the last
entry's artifact is still published. -/
theorem artifact_failure_isolation_witness :
    (SousChefKitchen.kitchenBaseAfterFormat SousChefKitchen.demoPublishEnv
        SousChefKitchen.demoFormatted false "run-1").2 =
      SousChefKitchen.filterRestrictedFields SousChefKitchen.demoFormatted
        false ∧
    SousChefKitchen.PublishEvent.published "run-1-c" [[("value", "3")]] "c" ∈
      (SousChefKitchen.kitchenBaseAfterFormat SousChefKitchen.demoPublishEnv
        SousChefKitchen.demoFormatted false "run-1").1 :=
  ⟨(artifact_failure_isolation SousChefKitchen.demoPublishEnv
      SousChefKitchen.demoFormatted false "run-1").1,
   (artifact_failure_isolation SousChefKitchen.demoPublishEnv
      SousChefKitchen.demoFormatted false "run-1").2 "c"
      { data := .vplain (.vscalar "3"), restricted := some false }
      (SousChefKitchen.PublishEvent.published "run-1-c" [[("value", "3")]] "c")
      (by decide) (by decide)⟩
